import Mathlib

/-!
Shallow embedding of the `griffindugan/pylink` repository
(`src/pylink/eyeLinkFramework.py` and `src/pylink/pylink_c.py`).

Stateful methods of the `eyeLink` class are embedded as pure functions
`Env → ELState → ... → Outcome α × ELState × List Ev` that thread the
object state explicitly and record every externally visible effect
(vendor SDK calls, prints, pygame calls, file operations) as an event in
an output trace.  The behaviour of the closed-source vendor SDK (which
calls raise `RuntimeError`, what `isConnected`/`isRecording` return,
the tracker version string) is abstracted into an `Env` record, since
that code is not part of this repository.  Display-PC rendering done by
the nested `window` helper (`show_message`, `wait_key`, surface fills)
is abstracted to coarse single events: no claim concerns its internals.
-/

/-! ## Python primitives used by the source -/

/-- Whitespace characters stripped by Python's `str.rstrip()` (ASCII range). -/
def pyIsSpace (c : Char) : Bool :=
  c = ' ' || c = '\t' || c = '\n' || c = '\x0d' || c = '\x0b' || c = '\x0c'

/-- Python `s.rstrip()`: drop trailing whitespace. -/
def pyRstrip (s : String) : String :=
  String.mk ((s.toList.reverse.dropWhile pyIsSpace).reverse)

/-- Python `os.path.join(a, b)` on POSIX for two components. -/
def pyJoin (a b : String) : String :=
  if b.toList.head? = some '/' then b
  else if a = "" || a.toList.getLast? = some '/' then a ++ b
  else a ++ "/" ++ b

/-- Python `s.split(".")[0]`: everything before the first dot. -/
def pyBeforeFirstDot (s : String) : String :=
  String.mk (s.toList.takeWhile (fun c => c ≠ '.'))

/-- Zero-padded two-digit field, as produced by `strftime` directives. -/
def pad2 (n : Nat) : String :=
  if n < 10 then "0" ++ toString n else toString n

/-- Zero-padded four-digit year field of `strftime` directive for the year. -/
def pad4 (n : Nat) : String :=
  if n < 10 then "000" ++ toString n
  else if n < 100 then "00" ++ toString n
  else if n < 1000 then "0" ++ toString n
  else toString n

/-- `time.strftime` applied to the exact format string used by `init_files`:
an underscore-separated local timestamp. -/
def strftimeSession (year month day hour minute : Nat) : String :=
  "_" ++ pad4 year ++ "_" ++ pad2 month ++ "_" ++ pad2 day ++
  "_" ++ pad2 hour ++ "_" ++ pad2 minute

/-- Helper for Python `str.split()`: accumulate the current word while
scanning the characters. -/
def splitWsAux : List Char → List Char → List String
  | [], acc => if acc = [] then [] else [String.mk acc.reverse]
  | c :: cs, acc =>
    if c.isWhitespace then
      (if acc = [] then [] else [String.mk acc.reverse]) ++ splitWsAux cs []
    else splitWsAux cs (c :: acc)

/-- Python `str.split()` with no argument: split on whitespace runs,
dropping empty pieces. -/
def pySplitWs (s : String) : List String := splitWsAux s.toList []

/-- Python `int(s)` on a decimal literal: optional sign and surrounding
whitespace, `none` when the text is not a valid integer literal. -/
def pyInt (s : String) : Option Int :=
  let t := ((s.toList.dropWhile Char.isWhitespace).reverse.dropWhile
    Char.isWhitespace).reverse
  let (sign, ds) :=
    match t with
    | '-' :: rest => ((-1 : Int), rest)
    | '+' :: rest => ((1 : Int), rest)
    | _ => ((1 : Int), t)
  if ds.length > 0 && ds.all Char.isDigit then
    some (sign * Int.ofNat (ds.foldl (fun n c => n * 10 + (c.toNat - 48)) 0))
  else none

/-- A Python value passed where the colour-name parameter is expected:
the annotations say `str`, but `terminate` actually passes the `int`
`BLACK.host`, so the dynamic type is a sum. -/
inductive PyVal where
  | vStr (s : String)
  | vInt (n : Int)
deriving DecidableEq

/-- Python `str(v)` for the two dynamic types above (f-string interpolation). -/
def pyStrOf (v : PyVal) : String :=
  match v with
  | .vStr s => s
  | .vInt n => toString n

/-! ## Colour constants (`eyeLinkFramework.py`, lines 30-77) -/

/-- Colour handler between name, rgb, and host PC colour. -/
structure Colour where
  name : String
  rgb : Int × Int × Int
  host : Int
deriving DecidableEq

def BLACK : Colour := ⟨"BLACK", (0, 0, 0), 0⟩
def BLUE : Colour := ⟨"BLUE", (50, 50, 255), 1⟩
def GREEN : Colour := ⟨"GREEN", (50, 128, 50), 2⟩
def CYAN : Colour := ⟨"CYAN", (50, 255, 255), 3⟩
def RED : Colour := ⟨"RED", (255, 50, 50), 4⟩
def VIOLET : Colour := ⟨"VIOLET", (238, 130, 238), 5⟩
def BROWN : Colour := ⟨"BROWN", (139, 69, 19), 6⟩
def LIGHT_GREY : Colour := ⟨"LIGHT GREY", (211, 211, 211), 7⟩
def GREY : Colour := ⟨"GREY", (128, 128, 128), 8⟩
def LIGHT_BLUE : Colour := ⟨"LIGHT BLUE", (135, 206, 250), 9⟩
def LIME : Colour := ⟨"LIME", (50, 255, 50), 10⟩
def LIGHT_CYAN : Colour := ⟨"LIGHT CYAN", (200, 255, 255), 11⟩
def PINK : Colour := ⟨"PINK", (255, 192, 203), 12⟩
def MAGENTA : Colour := ⟨"MAGENTA", (255, 50, 255), 13⟩
def YELLOW : Colour := ⟨"YELLOW", (255, 255, 50), 14⟩
def WHITE : Colour := ⟨"WHITE", (255, 255, 255), 15⟩

def COLOURS : List Colour :=
  [BLACK, BLUE, GREEN, CYAN, RED, VIOLET, BROWN, LIGHT_GREY, GREY,
   LIGHT_BLUE, LIME, LIGHT_CYAN, PINK, MAGENTA, YELLOW, WHITE]

/-- Python `colour.name == name` where `name` may dynamically be a `str`
or an `int`; comparing a `str` attribute with an `int` is `False`. -/
def pyEqName (c : Colour) (v : PyVal) : Bool :=
  match v with
  | .vStr s => c.name = s
  | .vInt _ => false

/-- `findColour(name, colours=COLOURS)`: first colour whose name equals
the argument, `None` if no match is found. -/
def findColour (v : PyVal) (colours : List Colour) : Option Colour :=
  colours.find? (fun c => pyEqName c v)

/-! ## `init_files` (`eyeLinkFramework.py`, lines 80-142)

The interactive `input()` loop is embedded over an explicit list of
user inputs (`none` models the loop still waiting for more input), the
filesystem is a list of existing directory paths, and `time.localtime`
is passed in as the five timestamp fields the format string uses.
`os.chdir` at the top of the function is process state no claim
mentions and is not modelled. -/

def ascii_letters : String :=
  "abcdefghijklmnopqrstuvwxyzABCDEFGHIJKLMNOPQRSTUVWXYZ"

def digits : String := "0123456789"

def allowed_char : String := ascii_letters ++ digits ++ "_"

/-- `makeFolder(path)`: `os.makedirs(path)`; creation of missing
intermediate directories is not tracked because every call site checks
existence of (and first creates) the parent. -/
def makeFolder (fs : List String) (path : String) : List String :=
  fs ++ [path]

/-- The EDF-filename prompt loop: take inputs until one passes the two
validity checks, returning the processed (rstripped, pre-first-dot)
name.  Invalid inputs only print an error and loop. -/
def askEdfName : List String → Option String
  | [] => none
  | raw :: rest =>
    let edf_fname := pyBeforeFirstDot (pyRstrip raw)
    if ¬ (edf_fname.toList.all (fun c => allowed_char.toList.contains c)) then
      askEdfName rest
    else if edf_fname.length > 8 then
      askEdfName rest
    else
      some edf_fname

/-- `init_files(results_folder="results")` over a list of pending user
inputs, the current local time, and the filesystem.  Returns the EDF
filename, the session identifier, the final filesystem, and the list of
`makeFolder` calls issued (in order). -/
def init_files (inputs : List String) (year month day hour minute : Nat)
    (fs0 : List String) (results_folder : String) :
    Option (String × String × List String × List String) :=
  match askEdfName inputs with
  | none => none
  | some edf_fname =>
    let (fs1, c1) :=
      if results_folder ∈ fs0 then (fs0, ([] : List String))
      else (makeFolder fs0 results_folder, [results_folder])
    let time_str := strftimeSession year month day hour minute
    let session_identifier := edf_fname ++ time_str
    let session_folder := pyJoin results_folder session_identifier
    let (fs2, c2) :=
      if session_folder ∈ fs1 then (fs1, ([] : List String))
      else (makeFolder fs1 session_folder, [session_folder])
    let aoi_folder := pyJoin session_folder "aoi"
    let (fs3, c3) :=
      if aoi_folder ∈ fs2 then (fs2, ([] : List String))
      else (makeFolder fs2 aoi_folder, [aoi_folder])
    some (edf_fname, session_identifier, fs3, c1 ++ c2 ++ c3)

/-! ## Vendor SDK constants

These numeric constants live in the closed-source `pylink` SDK, not in
this repository; the framework only compares and forwards them, so they
are modelled as distinct integers. -/

def TRIAL_OK : Int := 0
def TRIAL_ERROR : Int := -1
def ABORT_EXPT : Int := -2
def ESC_KEY : Int := 27

/-! ## Effect events -/

/-- One externally visible effect of a framework method: a vendor SDK
call, a print, a pygame/display action, or an interest-area file
operation. -/
inductive Ev where
  | eyelinkNew (addr : Option String)
  | openEDF (f : String)
  | sendCommand (c : String)
  | sendMessage (m : String)
  | setOfflineMode
  | getTrackerVersion
  | doTrackerSetup
  | exitCalibration
  | startRecording (a b c d : Int)
  | stopRec
  | closeDataFile
  | receiveDataFile (src dst : String)
  | closeLink
  | doDriftCorrect (x y : Int)
  | getEyelink
  | printed (s : String)
  | pygameQuit
  | pumpDelay (n : Int)
  | msecDelay (n : Int)
  | showMessage (m : String)
  | waitKey
  | fillFlip
  | drawCircle (x y r : Int)
  | iasOpen (p : String)
  | iasWrite (s : String)
  | iasClose
deriving DecidableEq

/-- The constructor of an event, with payloads erased. -/
inductive EvKind where
  | eyelinkNew | openEDF | sendCommand | sendMessage | setOfflineMode
  | getTrackerVersion | doTrackerSetup | exitCalibration | startRecording
  | stopRec | closeDataFile | receiveDataFile | closeLink | doDriftCorrect
  | getEyelink | printed | pygameQuit | pumpDelay | msecDelay | showMessage
  | waitKey | fillFlip | drawCircle | iasOpen | iasWrite | iasClose
deriving DecidableEq

def Ev.kind : Ev → EvKind
  | .eyelinkNew _ => .eyelinkNew
  | .openEDF _ => .openEDF
  | .sendCommand _ => .sendCommand
  | .sendMessage _ => .sendMessage
  | .setOfflineMode => .setOfflineMode
  | .getTrackerVersion => .getTrackerVersion
  | .doTrackerSetup => .doTrackerSetup
  | .exitCalibration => .exitCalibration
  | .startRecording _ _ _ _ => .startRecording
  | .stopRec => .stopRec
  | .closeDataFile => .closeDataFile
  | .receiveDataFile _ _ => .receiveDataFile
  | .closeLink => .closeLink
  | .doDriftCorrect _ _ => .doDriftCorrect
  | .getEyelink => .getEyelink
  | .printed _ => .printed
  | .pygameQuit => .pygameQuit
  | .pumpDelay _ => .pumpDelay
  | .msecDelay _ => .msecDelay
  | .showMessage _ => .showMessage
  | .waitKey => .waitKey
  | .fillFlip => .fillFlip
  | .drawCircle _ _ _ => .drawCircle
  | .iasOpen _ => .iasOpen
  | .iasWrite _ => .iasWrite
  | .iasClose => .iasClose

/-- Whether an event is a command/message/mode change sent to the
tracker (the "tracker commands" of the implicit claims). -/
def Ev.isTrackerCmd : Ev → Bool
  | .eyelinkNew _ => true
  | .openEDF _ => true
  | .sendCommand _ => true
  | .sendMessage _ => true
  | .setOfflineMode => true
  | .getTrackerVersion => true
  | .doTrackerSetup => true
  | .exitCalibration => true
  | .startRecording _ _ _ _ => true
  | .stopRec => true
  | .closeDataFile => true
  | .receiveDataFile _ _ => true
  | .closeLink => true
  | .doDriftCorrect _ _ => true
  | _ => false

/-! ## Object state and environment -/

/-- The `self.folders` dictionary.  The default keys are fixed by
`__init__`; `"ias"` is only added by `create_ia`.  Unknown extra keys
are never read by the framework and are not tracked. -/
structure Folders where
  m : String
  f : String
  r : String
  s : String
  aoi : String
  ias : Option String
deriving DecidableEq

/-- The mutable attributes of an `eyeLink` object that the embedded
methods read or write.  `iasFile` is `none` while the `ias_file`
attribute has not been assigned (reading it then raises
`AttributeError`). -/
structure ELState where
  id : String
  address : String
  folders : Folders
  dm : Bool
  file : String
  version : Int
  iasFile : Option String
deriving DecidableEq

/-- Behaviour of the closed-source vendor SDK and of the run-time
environment during one method call: which fallible SDK calls raise
`RuntimeError` (`some errorText`) and what the query calls return. -/
structure Env where
  connectErr : Option String
  openErr : Option String
  calibErr : Option String
  startRecErr : Option String
  receiveErr : Option String
  vstr : String
  isConnected : Bool
  isRecordingRet : Int
  breakPressed : Bool
  driftRet : Int
  driftRaises : Bool
  sameTracker : Bool
  scriptDir : String
deriving DecidableEq

/-- How a method call ends: normal return, `sys.exit()`, or an uncaught
Python exception. -/
inductive Outcome (α : Type) where
  | ok (a : α)
  | exited
  | raised (exc : String)
deriving DecidableEq

/-! ## `eyeLink` methods (`eyeLinkFramework.py`, lines 144-868)

Each method is a function of the SDK environment and the object state,
returning the outcome, the updated state, and the trace of effects in
program order.  A raising SDK call still emits its own event first. -/

/-- `clearDVScreen(colour)`: the two Data Viewer messages (state-free). -/
def clearDVScreen (colour : Int × Int × Int) : List Ev :=
  [Ev.sendMessage "blank_screen",
   Ev.sendMessage ("!V CLEAR " ++ toString colour.1 ++ " " ++
     toString colour.2.1 ++ " " ++ toString colour.2.2)]

/-- The not-found message printed by `drawHostLine`/`clearHostScreen`.
In the source this is a conditional expression on `col == None`, but in
the branch that prints, `findColour` has just returned `None`, so only
the first alternative is ever selected. -/
def noColourMsg (v : PyVal) : String :=
  "No colour was found with name '" ++ pyStrOf v ++
  "'. Please check documentation for clearHostScreen()."

/-- `drawHostLine(pos1, pos2, colour)`: send a `draw_line` command when
the colour name is found, print an error otherwise (state-free). -/
def drawHostLine (pos1 pos2 : Int × Int) (colour : PyVal) : List Ev :=
  match findColour colour COLOURS with
  | some col =>
    [Ev.sendCommand ("draw_line " ++ toString pos1.1 ++ " " ++ toString pos1.2 ++
      " " ++ toString pos2.1 ++ " " ++ toString pos2.2 ++ " " ++ toString col.host)]
  | none => [Ev.printed (noColourMsg colour)]

/-- `clearHostScreen(colour="BLACK")`: send a `clear_screen` command when
the colour name is found, print an error otherwise (state-free). -/
def clearHostScreen (colour : PyVal) : List Ev :=
  match findColour colour COLOURS with
  | some col => [Ev.sendCommand ("clear_screen " ++ toString col.host)]
  | none => [Ev.printed (noColourMsg colour)]

/-- `window.abort(bg_colour=GREY.rgb)`: stop a running recording, clear
the Data Viewer screen, mark the trial result, clear the display, and
return `pylink.TRIAL_ERROR`. -/
def windowAbort (env : Env) (st : ELState) (bg_colour : Int × Int × Int) :
    Int × List Ev :=
  let tr :=
    if ¬ st.dm then
      [Ev.getEyelink] ++
      (if env.sameTracker then [] else [Ev.printed "trackers not the same?"]) ++
      (if env.isRecordingRet ≠ 0 then [Ev.pumpDelay 100, Ev.stopRec] else []) ++
      clearDVScreen bg_colour ++
      [Ev.sendMessage ("TRIAL_RESULT " ++ toString TRIAL_ERROR)]
    else []
  (TRIAL_ERROR, tr ++ [Ev.fillFlip])

/-- `connect`, second half: set `self.file`, open the EDF data file on
the Host PC (exiting on `RuntimeError`), and send the preamble command. -/
def connectOpen (env : Env) (st : ELState) (tr : List Ev) :
    Outcome Unit × ELState × List Ev :=
  let st := { st with file := st.folders.f ++ ".EDF" }
  match env.openErr with
  | some e =>
    (Outcome.exited, st,
      tr ++ [Ev.openEDF st.file, Ev.printed ("ERROR: " ++ e)] ++
      (if env.isConnected then [Ev.closeLink] else []) ++ [Ev.pygameQuit])
  | none =>
    (Outcome.ok (), st,
      tr ++ [Ev.openEDF st.file,
        Ev.sendCommand "add_file_preamble_text 'RECORDED BY eyeLinkFramework.py'"])

/-- `connect(address="Default")`: create the `pylink.EyeLink` object
(dummy mode for address `"None"`, exiting on a connection
`RuntimeError`), then open the EDF data file and send the preamble. -/
def connect (env : Env) (st : ELState) (address : String) :
    Outcome Unit × ELState × List Ev :=
  let st := if address ≠ "Default" then { st with address := address } else st
  if st.address = "None" then
    connectOpen env { st with dm := true } [Ev.eyelinkNew none]
  else
    match env.connectErr with
    | some e =>
      (Outcome.exited, st,
        [Ev.eyelinkNew (some st.address), Ev.printed ("ERROR: " ++ e), Ev.pygameQuit])
    | none =>
      connectOpen env { st with dm := false } [Ev.eyelinkNew (some st.address)]

/-- `int(vstr.split()[-1].split(".")[0])`: the tracker major version
parsed from the version string; `none` when indexing or `int()` raises. -/
def pyVersionOf (vstr : String) : Option Int :=
  match (pySplitWs vstr).getLast? with
  | none => none
  | some w => pyInt (pyBeforeFirstDot w)

/-- The block of `sendCommand` configuration events issued by
`configure` after the version query.  The version only selects the
sample-flag strings; `sample_rate` is guarded by Python truthiness
(both `None` and `0` skip the command). -/
def configCmds (version : Int) (sample_rate : Option Int)
    (calibration_type : String) : List Ev :=
  let file_event_flags := "LEFT,RIGHT,FIXATION,SACCADE,BLINK,MESSAGE,BUTTON,INPUT"
  let link_event_flags := "LEFT,RIGHT,FIXATION,SACCADE,BLINK,BUTTON,FIXUPDATE,INPUT"
  let file_sample_flags :=
    if version > 3 then "LEFT,RIGHT,GAZE,HREF,RAW,AREA,HTARGET,GAZERES,BUTTON,STATUS,INPUT"
    else "LEFT,RIGHT,GAZE,HREF,RAW,AREA,GAZERES,BUTTON,STATUS,INPUT"
  let link_sample_flags :=
    if version > 3 then "LEFT,RIGHT,GAZE,GAZERES,AREA,HTARGET,STATUS,INPUT"
    else "LEFT,RIGHT,GAZE,GAZERES,AREA,STATUS,INPUT"
  [Ev.sendCommand ("file_event_filter = " ++ file_event_flags),
   Ev.sendCommand ("file_sample_data = " ++ file_sample_flags),
   Ev.sendCommand ("link_event_filter = " ++ link_event_flags),
   Ev.sendCommand ("link_sample_data = " ++ link_sample_flags)] ++
  (match sample_rate with
   | some r => if r = 0 then [] else [Ev.sendCommand ("sample_rate " ++ toString r)]
   | none => []) ++
  [Ev.sendCommand ("calibration_type = " ++ calibration_type),
   Ev.sendCommand "button_function 5 'accept_target_fixation'"]

/-- `configure(sample_rate=None, calibration_type="HV9")`: offline mode,
version query (skipped in dummy mode, raising if the version string
does not parse), then the configuration commands. -/
def configure (env : Env) (st : ELState) (sample_rate : Option Int)
    (calibration_type : String) : Outcome Unit × ELState × List Ev :=
  if st.dm then
    (Outcome.ok (), { st with version := 0 },
      [Ev.setOfflineMode] ++ configCmds 0 sample_rate calibration_type)
  else
    match pyVersionOf env.vstr with
    | none =>
      (Outcome.raised "ValueError", { st with version := 0 },
        [Ev.setOfflineMode, Ev.getTrackerVersion])
    | some v =>
      (Outcome.ok (), { st with version := v },
        [Ev.setOfflineMode, Ev.getTrackerVersion,
         Ev.printed ("Running experiment on " ++ env.vstr ++ ", version " ++ toString v)]
        ++ configCmds v sample_rate calibration_type)

/-- `calibrate(task_msg, ...)`: show the task message, wait for the task
key, then run tracker setup unless in dummy mode, printing and leaving
calibration on `RuntimeError`.  (`wait_key` terminating the task on
ESCAPE is an interactive path outside every claim and is not modelled.) -/
def calibrate (env : Env) (st : ELState) (task_msg : String) :
    Outcome Unit × ELState × List Ev :=
  let tr := [Ev.showMessage task_msg, Ev.waitKey]
  if ¬ st.dm then
    match env.calibErr with
    | some e =>
      (Outcome.ok (), st,
        tr ++ [Ev.doTrackerSetup, Ev.printed ("ERROR: " ++ e), Ev.exitCalibration])
    | none => (Outcome.ok (), st, tr ++ [Ev.doTrackerSetup])
  else (Outcome.ok (), st, tr)

/-- `record()`: offline mode, then `startRecording(1,1,1,1)`; on
`RuntimeError` print, abort the trial via `window.abort`, and return
`pylink.TRIAL_ERROR`; on success allow 100 ms of caching and return
`None`. -/
def record (env : Env) (st : ELState) : Outcome (Option Int) × ELState × List Ev :=
  match env.startRecErr with
  | some e =>
    (Outcome.ok (some TRIAL_ERROR), st,
      [Ev.setOfflineMode, Ev.startRecording 1 1 1 1, Ev.printed ("ERROR: " ++ e)] ++
      (windowAbort env st GREY.rgb).2)
  | none =>
    (Outcome.ok none, st,
      [Ev.setOfflineMode, Ev.startRecording 1 1 1 1, Ev.pumpDelay 100])

/-- `start_trial(trial_index, condition)`: offline mode, TRIALID
message, record-status command. -/
def start_trial (st : ELState) (trial_index : Int) (condition : String) :
    Outcome Unit × ELState × List Ev :=
  (Outcome.ok (), st,
    [Ev.setOfflineMode,
     Ev.sendMessage ("TRIALID " ++ toString trial_index),
     Ev.sendCommand ("record_status_message 'TRIAL number " ++
       toString trial_index ++ ", " ++ condition ++ "'")])

/-- `create_ia(trial_index, msg, newTrial=False)`: on a new trial,
record the interest-area file path, announce it, open the file, and
write; otherwise only write, raising `AttributeError` before any
tracker command when `ias_file` was never assigned. -/
def create_ia (st : ELState) (trial_index : Int) (msg : String)
    (newTrial : Bool) : Outcome Unit × ELState × List Ev :=
  if newTrial then
    let ias := "IA_" ++ toString trial_index ++ ".ias"
    let ias_path := pyJoin st.folders.aoi ias
    let st := { st with folders.ias := some ias_path, iasFile := some ias_path }
    (Outcome.ok (), st,
      [Ev.sendMessage ("!V IAREA FILE " ++ ias_path),
       Ev.iasOpen ias_path, Ev.iasWrite msg])
  else
    match st.iasFile with
    | none => (Outcome.raised "AttributeError", st, [])
    | some _ => (Outcome.ok (), st, [Ev.iasWrite msg])

/-- `stopRecording(trial_info, trial_labels=None)`: close the
interest-area file (raising `AttributeError` before any tracker command
when `ias_file` was never assigned), stop recording, send the trial
variables and the trial result.  `trial_labels` follows Python
truthiness (the Python-level formatting of the label list is kept
abstract as one string). -/
def stopRecording (st : ELState) (trial_info : List String)
    (trial_labels : Option String) : Outcome Unit × ELState × List Ev :=
  match st.iasFile with
  | none => (Outcome.raised "AttributeError", st, [])
  | some _ =>
    (Outcome.ok (), st,
      [Ev.iasClose, Ev.pumpDelay 100, Ev.stopRec] ++
      (trial_info.map (fun m => [Ev.sendMessage m, Ev.msecDelay 4])).flatten ++
      (match trial_labels with
       | some l =>
         if l = "" then []
         else [Ev.sendMessage ("!V TRIAL_VAR_DATA " ++ l)]
       | none => []) ++
      [Ev.sendMessage ("TRIAL_RESULT " ++ toString TRIAL_OK)])

/-- `terminate(...)`: when not in dummy mode and still connected, abort
a live trial, go offline, attempt to clear the Host PC screen (the
source passes the integer `BLACK.host` where a colour-name string is
expected, so this prints the not-found message instead of sending a
command), close and transfer the EDF file (printing on `RuntimeError`
but still closing the link), then quit pygame and exit. -/
def terminate (env : Env) (st : ELState) : Outcome Unit × ELState × List Ev :=
  let tr :=
    if ¬ st.dm then
      [Ev.getEyelink] ++
      (if env.sameTracker then [] else [Ev.printed "trackers not the same?"]) ++
      (if env.isConnected then
        (if env.isRecordingRet = TRIAL_OK then (windowAbort env st GREY.rgb).2 else []) ++
        [Ev.setOfflineMode] ++
        clearHostScreen (PyVal.vInt BLACK.host) ++
        [Ev.msecDelay 500, Ev.closeDataFile,
         Ev.showMessage "EDF data is transferring from EyeLink Host PC..."] ++
        (let local_edf := pyJoin st.folders.s (st.id ++ ".EDF")
         match env.receiveErr with
         | some e =>
           [Ev.receiveDataFile st.folders.f local_edf, Ev.printed ("ERROR: " ++ e)]
         | none => [Ev.receiveDataFile st.folders.f local_edf]) ++
        [Ev.closeLink]
      else [])
    else []
  (Outcome.exited, st, tr ++ [Ev.pygameQuit])

/-- One pass of the `driftCheck` `while not self.dm` loop, with fuel to
keep the (possibly non-terminating) retry loop total.  Fuel exhaustion
truncates the unbounded retrying; every claim about this method fixes
the dummy-mode case, where the loop body never runs. -/
def driftCheckLoop (env : Env) (st : ELState) (dc_x dc_y circleRad : Int) :
    Nat → List Ev → Outcome (Option Int) × ELState × List Ev
  | 0, tr => (Outcome.ok none, st, tr)
  | fuel + 1, tr =>
    if ¬ st.dm then
      if ¬ env.isConnected || env.breakPressed then
        let (_, _, ttr) := terminate env st
        (Outcome.exited, st, tr ++ ttr)
      else
        let tr := tr ++ [Ev.fillFlip, Ev.drawCircle dc_x dc_y circleRad]
        if env.driftRaises then
          driftCheckLoop env st dc_x dc_y circleRad fuel (tr ++ [Ev.doDriftCorrect dc_x dc_y])
        else if env.driftRet ≠ ESC_KEY then
          (Outcome.ok none, st, tr ++ [Ev.doDriftCorrect dc_x dc_y])
        else
          driftCheckLoop env st dc_x dc_y circleRad fuel (tr ++ [Ev.doDriftCorrect dc_x dc_y])
    else (Outcome.ok none, st, tr)

/-- `driftCheck(dc_x, dc_y, ...)`: in dummy mode the loop exits at once
returning `None`; otherwise draw the target and drift-correct until
success, terminating if the tracker disconnected. -/
def driftCheck (env : Env) (st : ELState) (fuel : Nat) (dc_x dc_y circleRad : Int) :
    Outcome (Option Int) × ELState × List Ev :=
  driftCheckLoop env st dc_x dc_y circleRad fuel []

/-- The object state built by `__init__` before `self.connect()` runs:
parameters stored, default folder names, overrides applied.  Attributes
assigned later (`dm`, `file`, `version`) start at placeholder values,
and `ias_file` does not exist yet. -/
def initState (env : Env) (id address : String)
    (folders : List (String × String)) : ELState :=
  let defaults : Folders :=
    { m := env.scriptDir, f := "TEST", r := "results",
      s := pyJoin "results" id, aoi := pyJoin (pyJoin "results" id) "aoi",
      ias := none }
  let fold := folders.foldl (fun (fs : Folders) kv =>
    match kv.1 with
    | "m" => { fs with m := kv.2 }
    | "f" => { fs with f := kv.2 }
    | "r" => { fs with r := kv.2 }
    | "s" => { fs with s := kv.2 }
    | "aoi" => { fs with aoi := kv.2 }
    | "ias" => { fs with ias := some kv.2 }
    | _ => fs) defaults
  { id := id, address := address, folders := fold,
    dm := false, file := "", version := 0, iasFile := none }

/-- `__init__(id, address="None", folders={})`: store the parameters and
folder names, then `self.connect()` followed by `self.configure()`. -/
def eyeLinkInit (env : Env) (id address : String)
    (folders : List (String × String)) : Outcome Unit × ELState × List Ev :=
  match connect env (initState env id address folders) "Default" with
  | (Outcome.ok _, st1, tr1) =>
    match configure env st1 none "HV9" with
    | (o2, st2, tr2) => (o2, st2, tr1 ++ tr2)
  | (o1, st1, tr1) => (o1, st1, tr1)

/-! ## ctypes binding module (`pylink_c.py`)

The shared library is abstracted as an oracle from function name and
argument list to a returned C value; each Python wrapper is embedded as
a function that returns its Python-level result together with the log
of C calls it performed.  `ctypes.byref(x)` is modelled as passing the
pointer to `x`; `bytes.decode` failures on invalid UTF-8 are kept
abstract (the decoder totalises with the empty string). -/

/-- The functions declared on the shared library object. -/
inductive CFn where
  | eyeLinkCBind | msecDelayC | openCustomGraphicsInternalC
  | getDisplayInformationC | inRealTimeModeC | flushGetkeyQueueC
  | beginRealTimeModeC | currentTimeC | currentUsecC | endRealTimeModeC
  | pumpDelayC | alertC | enableExtendedRealtimeC | getLastErrorC
  | enablePCRSampleC | enableUTF8EyeLinkMessagesC | bitmapSaveC
  | sendMessageToFileC | openMessageFileC | closeMessageFileC
  | requestCrossHairDrawC
deriving DecidableEq

/-- A C-level value crossing the ctypes boundary. -/
inductive CVal where
  | cint (n : Int)
  | cbytes (b : List UInt8)
  | cptr (p : Nat)
  | cvoid
deriving DecidableEq

/-- One call into the shared library: function and marshalled arguments. -/
structure CCall where
  fn : CFn
  args : List CVal
deriving DecidableEq

/-- The shared library as a pure oracle. -/
def CLib : Type := CFn → List CVal → CVal

/-- Python `s.encode('utf-8')`. -/
def utf8Encode (s : String) : List UInt8 := s.toUTF8.toList

/-- Python `b.decode('utf-8')` on the value returned by the library;
non-bytes results and invalid UTF-8 decode to the empty string. -/
def utf8Decode (v : CVal) : String :=
  match v with
  | .cbytes b => ((String.fromUTF8? (ByteArray.mk (Array.mk b))).getD "")
  | _ => ""

/-! The wrapper functions, one per `def` in `pylink_c.py`
(`open_custom_graphics_internal` is defined twice in the source with
identical bodies; the second definition shadows the first). -/

def eye_link_c_bind (lib : CLib) : CVal × List CCall :=
  (lib CFn.eyeLinkCBind [], [⟨CFn.eyeLinkCBind, []⟩])

def msec_delay (lib : CLib) (milliseconds : Int) : Unit × List CCall :=
  ((), [⟨CFn.msecDelayC, [CVal.cint milliseconds]⟩])

def open_custom_graphics_internal (lib : CLib) : CVal × List CCall :=
  (lib CFn.openCustomGraphicsInternalC [], [⟨CFn.openCustomGraphicsInternalC, []⟩])

def get_display_information (lib : CLib) (display_info : Nat) : CVal × List CCall :=
  (lib CFn.getDisplayInformationC [CVal.cptr display_info],
   [⟨CFn.getDisplayInformationC, [CVal.cptr display_info]⟩])

def in_real_time_mode (lib : CLib) (param : Int) : CVal × List CCall :=
  (lib CFn.inRealTimeModeC [CVal.cint param],
   [⟨CFn.inRealTimeModeC, [CVal.cint param]⟩])

def flush_getkey_queue (lib : CLib) : Unit × List CCall :=
  ((), [⟨CFn.flushGetkeyQueueC, []⟩])

def begin_real_time_mode (lib : CLib) (param : Int) : CVal × List CCall :=
  (lib CFn.beginRealTimeModeC [CVal.cint param],
   [⟨CFn.beginRealTimeModeC, [CVal.cint param]⟩])

def current_time (lib : CLib) : CVal × List CCall :=
  (lib CFn.currentTimeC [], [⟨CFn.currentTimeC, []⟩])

def current_usec (lib : CLib) : CVal × List CCall :=
  (lib CFn.currentUsecC [], [⟨CFn.currentUsecC, []⟩])

def end_real_time_mode (lib : CLib) : CVal × List CCall :=
  (lib CFn.endRealTimeModeC [], [⟨CFn.endRealTimeModeC, []⟩])

def pump_delay (lib : CLib) (milliseconds : Int) : Unit × List CCall :=
  ((), [⟨CFn.pumpDelayC, [CVal.cint milliseconds]⟩])

def alert (lib : CLib) (message : String) : Unit × List CCall :=
  ((), [⟨CFn.alertC, [CVal.cbytes (utf8Encode message)]⟩])

def enable_extended_realtime (lib : CLib) (param : Int) : CVal × List CCall :=
  (lib CFn.enableExtendedRealtimeC [CVal.cint param],
   [⟨CFn.enableExtendedRealtimeC, [CVal.cint param]⟩])

def get_last_error (lib : CLib) : String × List CCall :=
  (utf8Decode (lib CFn.getLastErrorC []), [⟨CFn.getLastErrorC, []⟩])

def enable_pcr_sample (lib : CLib) (param : Int) : CVal × List CCall :=
  (lib CFn.enablePCRSampleC [CVal.cint param],
   [⟨CFn.enablePCRSampleC, [CVal.cint param]⟩])

def enable_utf8_eye_link_messages (lib : CLib) (enable : Int) : CVal × List CCall :=
  (lib CFn.enableUTF8EyeLinkMessagesC [CVal.cint enable],
   [⟨CFn.enableUTF8EyeLinkMessagesC, [CVal.cint enable]⟩])

def bitmap_save (lib : CLib) (filename : String) : CVal × List CCall :=
  (lib CFn.bitmapSaveC [CVal.cbytes (utf8Encode filename)],
   [⟨CFn.bitmapSaveC, [CVal.cbytes (utf8Encode filename)]⟩])

def send_message_to_file (lib : CLib) (message : String) : CVal × List CCall :=
  (lib CFn.sendMessageToFileC [CVal.cbytes (utf8Encode message)],
   [⟨CFn.sendMessageToFileC, [CVal.cbytes (utf8Encode message)]⟩])

def open_message_file (lib : CLib) (filename : String) : CVal × List CCall :=
  (lib CFn.openMessageFileC [CVal.cbytes (utf8Encode filename)],
   [⟨CFn.openMessageFileC, [CVal.cbytes (utf8Encode filename)]⟩])

def close_message_file (lib : CLib) : CVal × List CCall :=
  (lib CFn.closeMessageFileC [], [⟨CFn.closeMessageFileC, []⟩])

def request_cross_hair_draw (lib : CLib) (draw : Int) : CVal × List CCall :=
  (lib CFn.requestCrossHairDrawC [CVal.cint draw],
   [⟨CFn.requestCrossHairDrawC, [CVal.cint draw]⟩])

/-! Pass-through templates following the spec's words ("a declaration
list mapping C function signatures to names with no logic beyond
straight pass-through"): issue exactly the one named C call on the
given (possibly encoded) arguments and return its result (possibly
decoded), nothing else. -/

/-- Spec template: nullary pass-through returning the C result. -/
def passNullary (fn : CFn) (lib : CLib) : CVal × List CCall :=
  (lib fn [], [⟨fn, []⟩])

/-- Spec template: int-argument pass-through returning the C result. -/
def passIntArg (fn : CFn) (lib : CLib) (n : Int) : CVal × List CCall :=
  (lib fn [CVal.cint n], [⟨fn, [CVal.cint n]⟩])

/-- Spec template: int-argument pass-through for a void C function. -/
def passIntVoid (fn : CFn) (lib : CLib) (n : Int) : Unit × List CCall :=
  ((), [⟨fn, [CVal.cint n]⟩])

/-- Spec template: string argument UTF-8 encoded before the call,
C result returned. -/
def passStrArg (fn : CFn) (lib : CLib) (s : String) : CVal × List CCall :=
  (lib fn [CVal.cbytes (utf8Encode s)], [⟨fn, [CVal.cbytes (utf8Encode s)]⟩])

/-- Spec template: string argument UTF-8 encoded, void C function. -/
def passStrVoid (fn : CFn) (lib : CLib) (s : String) : Unit × List CCall :=
  ((), [⟨fn, [CVal.cbytes (utf8Encode s)]⟩])

/-- Spec template: pointer argument (`ctypes.byref`) pass-through. -/
def passPtrArg (fn : CFn) (lib : CLib) (p : Nat) : CVal × List CCall :=
  (lib fn [CVal.cptr p], [⟨fn, [CVal.cptr p]⟩])

/-- Spec template: nullary call whose bytes result is UTF-8 decoded. -/
def passNullaryDecode (fn : CFn) (lib : CLib) : String × List CCall :=
  (utf8Decode (lib fn []), [⟨fn, []⟩])

/-! ## A full recording session

The usage recipe the spec describes, composed from the embedded
methods: construct the object (connect + configure), calibrate, record,
create the interest-area file, stop recording, terminate.  Non-normal
outcomes stop the session with the trace produced so far. -/

/-- The trace of SDK calls and other effects of one full session. -/
def sessionTrace (env : Env) (id address : String) : List Ev :=
  match eyeLinkInit env id address [] with
  | (Outcome.ok _, st0, tr0) =>
    match calibrate env st0 "Press ENTER to begin" with
    | (Outcome.ok _, st1, tr1) =>
      match record env st1 with
      | (Outcome.ok _, st2, tr2) =>
        match create_ia st2 1 "trial 1 interest areas" true with
        | (Outcome.ok _, st3, tr3) =>
          match stopRecording st3 ["!V TRIAL_VAR condition A"] none with
          | (Outcome.ok _, st4, tr4) =>
            let (_, _, tr5) := terminate env st4
            tr0 ++ tr1 ++ tr2 ++ tr3 ++ tr4 ++ tr5
          | (_, _, tr4) => tr0 ++ tr1 ++ tr2 ++ tr3 ++ tr4
        | (_, _, tr3) => tr0 ++ tr1 ++ tr2 ++ tr3
      | (_, _, tr2) => tr0 ++ tr1 ++ tr2
    | (_, _, tr1) => tr0 ++ tr1
  | (_, _, tr0) => tr0

/-- An environment in which every fallible SDK call succeeds: a
connected EyeLink 1000 Plus, no recording in progress at trial end. -/
def successEnv : Env :=
  { connectErr := none, openErr := none, calibErr := none,
    startRecErr := none, receiveErr := none,
    vstr := "EYELINK CL 5.50", isConnected := true, isRecordingRet := 0,
    breakPressed := false, driftRet := 0, driftRaises := false,
    sameTracker := true, scriptDir := "" }

/-- A concrete post-construction object state used to instantiate
universally quantified theorems. -/
def demoState : ELState :=
  { id := "P01_2025_10_12_09_30", address := "100.1.1.1",
    folders := { m := "", f := "TEST", r := "results",
                 s := "results/P01_2025_10_12_09_30",
                 aoi := "results/P01_2025_10_12_09_30/aoi", ias := none },
    dm := false, file := "TEST.EDF", version := 5, iasFile := none }

/-- The canonical fully successful session used for concrete order facts. -/
def demoSession : List Ev := sessionTrace successEnv "P01_2025_10_12_09_30" "100.1.1.1"

/-! ## Helper lemmas -/

/-- `findColour` never matches when the argument is an `int` (Python
`str == int` is `False` for every colour). -/
theorem findColour_int_none (n : Int) : findColour (PyVal.vInt n) COLOURS = none := rfl

/-- Hence `clearHostScreen` called with an `int` (as `terminate` does
with `BLACK.host`) only prints the not-found message. -/
theorem clearHostScreen_int (n : Int) :
    clearHostScreen (PyVal.vInt n) = [Ev.printed (noColourMsg (PyVal.vInt n))] := rfl

/-- `driftCheckLoop` never changes the object state. -/
theorem driftCheckLoop_state (env : Env) (st : ELState) (x y r : Int) :
    ∀ (fuel : Nat) (tr : List Ev),
      (driftCheckLoop env st x y r fuel tr).2.1 = st := by
  intro fuel
  induction fuel with
  | zero => intro tr; rfl
  | succ n ih =>
    intro tr
    rw [driftCheckLoop]
    split
    · split
      · rfl
      · split
        · exact ih _
        · split
          · rfl
          · exact ih _
    · rfl

/-- A name accepted by the EDF prompt loop uses only allowed characters
and is at most eight characters long. -/
theorem askEdfName_valid (inputs : List String) (f : String)
    (h : askEdfName inputs = some f) :
    f.toList.all (fun c => allowed_char.toList.contains c) = true ∧ f.length ≤ 8 := by
  induction inputs with
  | nil => simp [askEdfName] at h
  | cons raw rest ih =>
    simp only [askEdfName] at h
    split_ifs at h with h1 h2
    all_goals first
      | exact ih h
      | (cases h; exact ⟨by simp_all, by omega⟩)

/-- A concrete dummy-mode object state (address `"None"`). -/
def demoDummyState : ELState :=
  { id := "P02_2025_10_12_10_00", address := "None",
    folders := { m := "", f := "TEST", r := "results",
                 s := "results/P02_2025_10_12_10_00",
                 aoi := "results/P02_2025_10_12_10_00/aoi", ias := none },
    dm := true, file := "TEST.EDF", version := 0, iasFile := none }

/-! ## Claim theorems -/

/-- C8: `init_files` accepts the empty string as a valid EDF filename:
an input that is empty after stripping trailing whitespace and taking
the part before the first dot passes both the character check and the
length check, so the returned filename is empty (here the user typed
`".edf  "`). -/
theorem c8_empty_filename_accepted :
    init_files [".edf  "] 2025 1 2 3 4 [] "results" =
      some ("", "_2025_01_02_03_04",
        ["results", "results/_2025_01_02_03_04", "results/_2025_01_02_03_04/aoi"],
        ["results", "results/_2025_01_02_03_04", "results/_2025_01_02_03_04/aoi"]) := by
  decide

/-- C10: for every eyeLink object in dummy mode and all target
coordinates, `driftCheck` returns `None` immediately: the loop body
never executes, so it sends no tracker command, draws nothing, and
leaves the object state unchanged. -/
theorem c10_driftCheck_dummy_noop (env : Env) (st : ELState) (fuel : Nat)
    (dc_x dc_y circleRad : Int) (h : st.dm = true) :
    driftCheck env st fuel dc_x dc_y circleRad = (Outcome.ok none, st, []) := by
  cases fuel with
  | zero => rfl
  | succ n => simp [driftCheck, driftCheckLoop, h]

/-- Witness for C10 at a concrete dummy-mode state. -/
theorem c10_driftCheck_dummy_noop_witness :
    driftCheck successEnv demoDummyState 3 512 384 10 =
      (Outcome.ok none, demoDummyState, []) :=
  c10_driftCheck_dummy_noop successEnv demoDummyState 3 512 384 10 rfl

/-- C7: for every colour-name string, `drawHostLine` and
`clearHostScreen` send a `draw_line`/`clear_screen` command to the Host
PC if and only if the name matches one of the 16 colour constants
(whose Host PC numbers are 0 through 15 in list order); for any other
name they print an error message and send no command. -/
theorem c7_host_colour_lookup (name : String) (x1 y1 x2 y2 : Int) :
    COLOURS.map Colour.host = (List.range 16).map Int.ofNat ∧
    (∀ c, c ∈ COLOURS → c.name = name →
      ∃ col, findColour (PyVal.vStr name) COLOURS = some col ∧
        col ∈ COLOURS ∧ col.name = name ∧
        drawHostLine (x1, y1) (x2, y2) (PyVal.vStr name) =
          [Ev.sendCommand ("draw_line " ++ toString x1 ++ " " ++ toString y1 ++ " " ++
            toString x2 ++ " " ++ toString y2 ++ " " ++ toString col.host)] ∧
        clearHostScreen (PyVal.vStr name) =
          [Ev.sendCommand ("clear_screen " ++ toString col.host)]) ∧
    ((∀ c, c ∈ COLOURS → c.name ≠ name) →
      drawHostLine (x1, y1) (x2, y2) (PyVal.vStr name) =
        [Ev.printed (noColourMsg (PyVal.vStr name))] ∧
      clearHostScreen (PyVal.vStr name) =
        [Ev.printed (noColourMsg (PyVal.vStr name))]) := by
  refine ⟨by decide, ?_, ?_⟩
  · intro c hc hcname
    have hsome : (COLOURS.find? (fun c => pyEqName c (PyVal.vStr name))).isSome := by
      rw [List.find?_isSome]
      exact ⟨c, hc, by simp [pyEqName, hcname]⟩
    obtain ⟨col, hcol⟩ := Option.isSome_iff_exists.mp hsome
    have hmem : col ∈ COLOURS := List.mem_of_find?_eq_some hcol
    have hname : col.name = name := by
      have := List.find?_some hcol
      simpa [pyEqName] using this
    exact ⟨col, hcol, hmem, hname, by simp [drawHostLine, findColour, hcol],
      by simp [clearHostScreen, findColour, hcol]⟩
  · intro hnone
    have hfind : findColour (PyVal.vStr name) COLOURS = none := by
      rw [findColour, List.find?_eq_none]
      intro c hc
      simp [pyEqName]
      exact hnone c hc
    exact ⟨by simp [drawHostLine, hfind], by simp [clearHostScreen, hfind]⟩

/-- Witness for C7: the found branch at `"RED"` and the not-found
branch at `"red"`. -/
theorem c7_host_colour_lookup_witness :
    (∃ col, findColour (PyVal.vStr "RED") COLOURS = some col ∧
      col ∈ COLOURS ∧ col.name = "RED" ∧
      drawHostLine (1, 2) (3, 4) (PyVal.vStr "RED") =
        [Ev.sendCommand ("draw_line " ++ toString (1 : Int) ++ " " ++ toString (2 : Int) ++
          " " ++ toString (3 : Int) ++ " " ++ toString (4 : Int) ++ " " ++ toString col.host)] ∧
      clearHostScreen (PyVal.vStr "RED") =
        [Ev.sendCommand ("clear_screen " ++ toString col.host)]) ∧
    (drawHostLine (1, 2) (3, 4) (PyVal.vStr "red") =
        [Ev.printed (noColourMsg (PyVal.vStr "red"))] ∧
      clearHostScreen (PyVal.vStr "red") =
        [Ev.printed (noColourMsg (PyVal.vStr "red"))]) :=
  ⟨(c7_host_colour_lookup "RED" 1 2 3 4).2.1 RED (by decide) rfl,
   (c7_host_colour_lookup "red" 1 2 3 4).2.2 (by decide)⟩

/-- Spec template: nullary call to a void C function. -/
def passNullaryVoid (fn : CFn) (lib : CLib) : Unit × List CCall :=
  ((), [⟨fn, []⟩])

/-- C2: every public wrapper function in the ctypes binding module calls
exactly its one corresponding C library function, passing its arguments
through unchanged (strings UTF-8 encoded before the call, the result of
`getLastError` UTF-8 decoded after it) and returning that function's
result, with no other logic: each wrapper coincides with the
pass-through template for its C function's signature. -/
theorem c2_ctypes_pass_through (lib : CLib) (n : Int) (p : Nat) (s : String) :
    eye_link_c_bind lib = passNullary CFn.eyeLinkCBind lib ∧
    msec_delay lib n = passIntVoid CFn.msecDelayC lib n ∧
    open_custom_graphics_internal lib = passNullary CFn.openCustomGraphicsInternalC lib ∧
    get_display_information lib p = passPtrArg CFn.getDisplayInformationC lib p ∧
    in_real_time_mode lib n = passIntArg CFn.inRealTimeModeC lib n ∧
    flush_getkey_queue lib = passNullaryVoid CFn.flushGetkeyQueueC lib ∧
    begin_real_time_mode lib n = passIntArg CFn.beginRealTimeModeC lib n ∧
    current_time lib = passNullary CFn.currentTimeC lib ∧
    current_usec lib = passNullary CFn.currentUsecC lib ∧
    end_real_time_mode lib = passNullary CFn.endRealTimeModeC lib ∧
    pump_delay lib n = passIntVoid CFn.pumpDelayC lib n ∧
    alert lib s = passStrVoid CFn.alertC lib s ∧
    enable_extended_realtime lib n = passIntArg CFn.enableExtendedRealtimeC lib n ∧
    get_last_error lib = passNullaryDecode CFn.getLastErrorC lib ∧
    enable_pcr_sample lib n = passIntArg CFn.enablePCRSampleC lib n ∧
    enable_utf8_eye_link_messages lib n = passIntArg CFn.enableUTF8EyeLinkMessagesC lib n ∧
    bitmap_save lib s = passStrArg CFn.bitmapSaveC lib s ∧
    send_message_to_file lib s = passStrArg CFn.sendMessageToFileC lib s ∧
    open_message_file lib s = passStrArg CFn.openMessageFileC lib s ∧
    close_message_file lib = passNullary CFn.closeMessageFileC lib ∧
    request_cross_hair_draw lib n = passIntArg CFn.requestCrossHairDrawC lib n :=
  ⟨rfl, rfl, rfl, rfl, rfl, rfl, rfl, rfl, rfl, rfl, rfl,
   rfl, rfl, rfl, rfl, rfl, rfl, rfl, rfl, rfl, rfl⟩

/-- C3: for every sequence of user inputs, `init_files` returns only
once an EDF filename is valid: the returned filename consists solely of
ASCII letters, digits, and underscores, has length at most 8, and the
returned session identifier equals that filename followed by the
underscore-separated local timestamp. -/
theorem c3_init_files_valid_name (inputs : List String) (y mo d hr mi : Nat)
    (fs0 : List String) (rf fname sid : String) (fsF calls : List String)
    (hrun : init_files inputs y mo d hr mi fs0 rf = some (fname, sid, fsF, calls)) :
    fname.toList.all (fun c => allowed_char.toList.contains c) = true ∧
    fname.length ≤ 8 ∧
    sid = fname ++ strftimeSession y mo d hr mi := by
  unfold init_files at hrun
  cases hask : askEdfName inputs with
  | none => rw [hask] at hrun; cases hrun
  | some f0 =>
    rw [hask] at hrun
    simp only [Option.some.injEq, Prod.mk.injEq] at hrun
    obtain ⟨hf, hs, -⟩ := hrun
    obtain ⟨h1, h2⟩ := askEdfName_valid inputs f0 hask
    subst hf
    exact ⟨h1, h2, hs.symm⟩

/-- Witness for C3 at a concrete run. -/
theorem c3_init_files_valid_name_witness :
    ("myData".toList.all (fun c => allowed_char.toList.contains c) = true) ∧
    ("myData" : String).length ≤ 8 ∧
    "myData_2025_10_12_09_30" = "myData" ++ strftimeSession 2025 10 12 9 30 :=
  c3_init_files_valid_name ["bad name!", "myData.edf"] 2025 10 12 9 30 [] "results"
    "myData" "myData_2025_10_12_09_30"
    ["results", "results/myData_2025_10_12_09_30", "results/myData_2025_10_12_09_30/aoi"]
    ["results", "results/myData_2025_10_12_09_30", "results/myData_2025_10_12_09_30/aoi"]
    (by decide)

/-- C4: after `init_files` returns, the results folder, the session
folder inside it named by the session identifier, and the `"aoi"`
subfolder inside the session folder all exist, and each `makeFolder`
call was issued only for a path that did not exist at the moment of the
call (the final filesystem is the initial one plus exactly the created
paths). -/
theorem c4_folders_created (inputs : List String) (y mo d hr mi : Nat)
    (fs0 : List String) (rf fname sid : String) (fsF calls : List String)
    (hrun : init_files inputs y mo d hr mi fs0 rf = some (fname, sid, fsF, calls)) :
    rf ∈ fsF ∧
    pyJoin rf sid ∈ fsF ∧
    pyJoin (pyJoin rf sid) "aoi" ∈ fsF ∧
    fsF = fs0 ++ calls ∧
    (∀ i p, calls[i]? = some p → p ∉ fs0 ++ calls.take i) := by
  unfold init_files at hrun
  cases hask : askEdfName inputs with
  | none => rw [hask] at hrun; cases hrun
  | some f0 =>
    rw [hask] at hrun
    simp only [makeFolder] at hrun
    split_ifs at hrun with hA hB hC hB hC <;>
      simp only [Option.some.injEq, Prod.mk.injEq] at hrun <;>
      obtain ⟨hf, hs, hfs, hc⟩ := hrun <;>
      subst hf <;> subst hs <;> subst hfs <;> subst hc <;>
      refine ⟨by simp_all <;> tauto, by simp_all <;> tauto, by simp_all <;> tauto,
        by simp, ?_⟩ <;>
      (intro i p hp; rcases i with _ | _ | _ | i <;> simp_all [List.take])

/-- Witness for C4: a run where the results folder already exists, so
only the session and aoi folders are created. -/
theorem c4_folders_created_witness :
    ("results" : String) ∈
      ["results", "results/myData_2025_10_12_09_30",
       "results/myData_2025_10_12_09_30/aoi"] ∧
    pyJoin "results" "myData_2025_10_12_09_30" ∈
      ["results", "results/myData_2025_10_12_09_30",
       "results/myData_2025_10_12_09_30/aoi"] ∧
    pyJoin (pyJoin "results" "myData_2025_10_12_09_30") "aoi" ∈
      ["results", "results/myData_2025_10_12_09_30",
       "results/myData_2025_10_12_09_30/aoi"] ∧
    (["results", "results/myData_2025_10_12_09_30",
      "results/myData_2025_10_12_09_30/aoi"] : List String) =
      ["results"] ++ ["results/myData_2025_10_12_09_30",
        "results/myData_2025_10_12_09_30/aoi"] := by
  have h := c4_folders_created ["myData"] 2025 10 12 9 30 ["results"] "results"
    "myData" "myData_2025_10_12_09_30"
    ["results", "results/myData_2025_10_12_09_30", "results/myData_2025_10_12_09_30/aoi"]
    ["results/myData_2025_10_12_09_30", "results/myData_2025_10_12_09_30/aoi"]
    (by decide)
  exact ⟨h.1, h.2.1, h.2.2.1, h.2.2.2.1⟩

/-- C9: `stopRecording`, and `create_ia` called with `newTrial=False`,
require that `create_ia` was previously called with `newTrial=True` on
the same object: only that call assigns the `ias_file` attribute (every
other embedded method leaves it unassigned), and without it both
operations fail with an `AttributeError` before any tracker command is
sent (their traces are empty). -/
theorem c9_stop_requires_new_trial (env : Env) (st : ELState) (fuel : Nat)
    (ti : Int) (msg cond task addr : String) (info : List String)
    (labels : Option String) (h : st.iasFile = none) :
    stopRecording st info labels = (Outcome.raised "AttributeError", st, []) ∧
    create_ia st ti msg false = (Outcome.raised "AttributeError", st, []) ∧
    (create_ia st ti msg true).2.1.iasFile =
      some (pyJoin st.folders.aoi ("IA_" ++ toString ti ++ ".ias")) ∧
    (connect env st addr).2.1.iasFile = none ∧
    (configure env st none "HV9").2.1.iasFile = none ∧
    (calibrate env st task).2.1.iasFile = none ∧
    (record env st).2.1.iasFile = none ∧
    (start_trial st ti cond).2.1.iasFile = none ∧
    (terminate env st).2.1.iasFile = none ∧
    (driftCheck env st fuel 0 0 10).2.1.iasFile = none := by
  refine ⟨by simp [stopRecording, h], by simp [create_ia, h], by simp [create_ia], ?_,
    ?_, ?_, ?_, h, h, ?_⟩
  · unfold connect connectOpen
    by_cases h1 : addr = "Default" <;> by_cases h2 : addr = "None" <;>
      by_cases h3 : st.address = "None" <;> cases env.connectErr <;>
      cases env.openErr <;> simp [h, h1, h2, h3]
  · unfold configure
    split_ifs <;> try simp [h]
    cases pyVersionOf env.vstr <;> simp [h]
  · unfold calibrate
    split_ifs <;> try simp [h]
    cases env.calibErr <;> simp [h]
  · unfold record
    cases env.startRecErr <;> simp [h]
  · rw [driftCheck, driftCheckLoop_state env st 0 0 10 fuel []]
    exact h

/-- Witness for C9 at a concrete state whose `ias_file` is unassigned. -/
theorem c9_stop_requires_new_trial_witness :
    stopRecording demoState ["!V TRIAL_VAR condition A"] none =
      (Outcome.raised "AttributeError", demoState, []) :=
  (c9_stop_requires_new_trial successEnv demoState 3 1 "m" "cond" "task" "Default"
    ["!V TRIAL_VAR condition A"] none rfl).1

/-- C6: for every construction of an `eyeLink` object, the constructor
first connects to the tracker (entering dummy mode exactly when the
address is the string `"None"`) and then configures it, in that order,
before returning: the constructor's result is the composition of
`connect` followed by `configure` with their traces concatenated, and
when `connect` exits the constructor never reaches `configure`. -/
theorem c6_ctor_connect_then_configure (env : Env) (id address : String)
    (folders : List (String × String)) :
    (∀ st1 tr1,
      connect env (initState env id address folders) "Default" =
        (Outcome.ok (), st1, tr1) →
      (st1.dm = true ↔ address = "None") ∧
      ∃ o2 st2 tr2, configure env st1 none "HV9" = (o2, st2, tr2) ∧
        eyeLinkInit env id address folders = (o2, st2, tr1 ++ tr2)) ∧
    (∀ st1 tr1,
      connect env (initState env id address folders) "Default" =
        (Outcome.exited, st1, tr1) →
      eyeLinkInit env id address folders = (Outcome.exited, st1, tr1)) := by
  constructor
  · intro st1 tr1 hconn
    constructor
    · revert hconn
      unfold connect connectOpen initState
      by_cases h2 : address = "None" <;> cases env.connectErr <;>
        cases env.openErr <;> intro hconn <;> simp_all [h2] <;>
        (obtain ⟨hst, -⟩ := hconn; subst hst; simp)
    · rcases hc : configure env st1 none "HV9" with ⟨o2, st2, tr2⟩
      refine ⟨o2, st2, tr2, rfl, ?_⟩
      rw [eyeLinkInit, hconn]
      simp [hc]
  · intro st1 tr1 hconn
    rw [eyeLinkInit, hconn]

/-- Witness for C6: a dummy-mode construction. -/
theorem c6_ctor_connect_then_configure_witness :
    ((connect successEnv (initState successEnv "P03" "None" []) "Default").2.1.dm = true
      ↔ ("None" : String) = "None") ∧
    ∃ o2 st2 tr2,
      configure successEnv
        (connect successEnv (initState successEnv "P03" "None" []) "Default").2.1
        none "HV9" = (o2, st2, tr2) ∧
      eyeLinkInit successEnv "P03" "None" [] =
        (o2, st2,
          (connect successEnv (initState successEnv "P03" "None" []) "Default").2.2 ++ tr2) :=
  (c6_ctor_connect_then_configure successEnv "P03" "None" []).1 _ _ (by decide)

/-- An environment in which every fallible SDK call raises
`RuntimeError`, used to exercise the error paths. -/
def failEnv : Env :=
  { connectErr := some "Could not connect", openErr := some "Could not open EDF",
    calibErr := some "Setup aborted", startRecErr := some "Could not record",
    receiveErr := some "Transfer failed",
    vstr := "EYELINK CL 5.50", isConnected := true, isRecordingRet := 0,
    breakPressed := false, driftRet := 0, driftRaises := false,
    sameTracker := true, scriptDir := "" }

/-- C5: whenever a vendor SDK call made by the façade raises a
`RuntimeError` (connecting, opening the data file, calibrating,
starting recording, or transferring the EDF file), the error is
printed; `record` additionally aborts the trial via `window.abort` and
returns `pylink.TRIAL_ERROR`, and `terminate` continues to close the
link after printing a transfer error. -/
theorem c5_runtime_errors_printed (env : Env) (st : ELState)
    (e1 e2 e3 e4 e5 task : String) :
    (env.connectErr = some e1 → st.address ≠ "None" →
      Ev.printed ("ERROR: " ++ e1) ∈ (connect env st "Default").2.2) ∧
    (env.openErr = some e2 → (st.address = "None" ∨ env.connectErr = none) →
      Ev.printed ("ERROR: " ++ e2) ∈ (connect env st "Default").2.2) ∧
    (env.calibErr = some e3 → st.dm = false →
      Ev.printed ("ERROR: " ++ e3) ∈ (calibrate env st task).2.2) ∧
    (env.startRecErr = some e4 →
      record env st = (Outcome.ok (some TRIAL_ERROR), st,
        [Ev.setOfflineMode, Ev.startRecording 1 1 1 1, Ev.printed ("ERROR: " ++ e4)] ++
        (windowAbort env st GREY.rgb).2)) ∧
    (env.receiveErr = some e5 → st.dm = false → env.isConnected = true →
      env.sameTracker = true → env.isRecordingRet = 0 →
      terminate env st = (Outcome.exited, st,
        [Ev.getEyelink] ++ (windowAbort env st GREY.rgb).2 ++
        [Ev.setOfflineMode, Ev.printed (noColourMsg (PyVal.vInt 0)),
         Ev.msecDelay 500, Ev.closeDataFile,
         Ev.showMessage "EDF data is transferring from EyeLink Host PC...",
         Ev.receiveDataFile st.folders.f (pyJoin st.folders.s (st.id ++ ".EDF")),
         Ev.printed ("ERROR: " ++ e5), Ev.closeLink, Ev.pygameQuit])) := by
  refine ⟨?_, ?_, ?_, ?_, ?_⟩
  · intro h1 h2
    unfold connect connectOpen
    simp [h1, h2]
  · intro h1 h2
    unfold connect connectOpen
    rcases h2 with h2 | h2 <;> cases henv : env.connectErr <;>
      by_cases h3 : st.address = "None" <;> simp_all [h1]
  · intro h1 h2
    unfold calibrate
    simp [h1, h2]
  · intro h1
    unfold record
    simp [h1]
  · intro h1 h2 h3 h4 h5
    unfold terminate
    simp [h1, h2, h3, h4, h5, TRIAL_OK, clearHostScreen_int, BLACK]

/-- Witness for C5: all five error paths at a concrete failing
environment and state. -/
theorem c5_runtime_errors_printed_witness :
    Ev.printed "ERROR: Could not connect" ∈
      (connect failEnv demoState "Default").2.2 ∧
    Ev.printed "ERROR: Could not open EDF" ∈
      (connect { failEnv with connectErr := none } demoState "Default").2.2 ∧
    Ev.printed "ERROR: Setup aborted" ∈
      (calibrate failEnv demoState "task").2.2 ∧
    record failEnv demoState = (Outcome.ok (some TRIAL_ERROR), demoState,
      [Ev.setOfflineMode, Ev.startRecording 1 1 1 1,
       Ev.printed "ERROR: Could not record"] ++
      (windowAbort failEnv demoState GREY.rgb).2) ∧
    terminate failEnv demoState = (Outcome.exited, demoState,
      [Ev.getEyelink] ++ (windowAbort failEnv demoState GREY.rgb).2 ++
      [Ev.setOfflineMode, Ev.printed (noColourMsg (PyVal.vInt 0)),
       Ev.msecDelay 500, Ev.closeDataFile,
       Ev.showMessage "EDF data is transferring from EyeLink Host PC...",
       Ev.receiveDataFile demoState.folders.f
         (pyJoin demoState.folders.s (demoState.id ++ ".EDF")),
       Ev.printed "ERROR: Transfer failed", Ev.closeLink, Ev.pygameQuit]) :=
  ⟨(c5_runtime_errors_printed failEnv demoState "Could not connect" "x" "x" "x" "x"
      "task").1 rfl (by decide),
   (c5_runtime_errors_printed { failEnv with connectErr := none } demoState "x"
      "Could not open EDF" "x" "x" "x" "task").2.1 rfl (Or.inr rfl),
   (c5_runtime_errors_printed failEnv demoState "x" "x" "Setup aborted" "x" "x"
      "task").2.2.1 rfl rfl,
   (c5_runtime_errors_printed failEnv demoState "x" "x" "x" "Could not record" "x"
      "task").2.2.2.1 rfl,
   (c5_runtime_errors_printed failEnv demoState "x" "x" "x" "x" "Transfer failed"
      "task").2.2.2.2 rfl rfl rfl rfl rfl⟩

/-- C1 counterexample: the claimed order "offline mode, then configure,
then open the EDF file" is false for the canonical fully successful
session: the EDF data file is opened (inside `connect`) strictly before
the first `setOfflineMode` (issued at the top of `configure`). -/
theorem c1_claimed_order_counterexample :
    Ev.setOfflineMode ∈ demoSession ∧
    Ev.openEDF "TEST.EDF" ∈ demoSession ∧
    demoSession.indexOf (Ev.openEDF "TEST.EDF") <
      demoSession.indexOf Ev.setOfflineMode := by
  decide

/-- C1 (amended): for every fully successful non-dummy session, the
vendor SDK calls are issued in the fixed order: connect, then open the
EDF data file, then offline mode, then configure, then calibrate, then
record, then stop, then close. -/
theorem c1_session_call_order (env : Env) (id address : String)
    (hA : address ≠ "None") (h1 : env.connectErr = none) (h2 : env.openErr = none)
    (h3 : env.calibErr = none) (h4 : env.startRecErr = none)
    (h5 : env.receiveErr = none) (h6 : env.isConnected = true)
    (h7 : env.isRecordingRet = 0) (h8 : env.sameTracker = true)
    (v : Int) (h9 : pyVersionOf env.vstr = some v) :
    List.Sublist
      [EvKind.eyelinkNew, EvKind.openEDF, EvKind.setOfflineMode, EvKind.sendCommand,
       EvKind.doTrackerSetup, EvKind.startRecording, EvKind.stopRec,
       EvKind.closeDataFile, EvKind.closeLink]
      ((sessionTrace env id address).map Ev.kind) := by
  simp only [sessionTrace, eyeLinkInit, initState, connect, connectOpen, configure,
    configCmds, calibrate, record, windowAbort, clearDVScreen, create_ia,
    stopRecording, terminate, clearHostScreen_int, TRIAL_OK, TRIAL_ERROR,
    h1, h2, h3, h4, h5, h6, h7, h8, h9, hA, List.foldl]
  simp [Ev.kind, hA]
  decide

/-- Witness for the amended C1 at the canonical successful session. -/
theorem c1_session_call_order_witness :
    List.Sublist
      [EvKind.eyelinkNew, EvKind.openEDF, EvKind.setOfflineMode, EvKind.sendCommand,
       EvKind.doTrackerSetup, EvKind.startRecording, EvKind.stopRec,
       EvKind.closeDataFile, EvKind.closeLink]
      (demoSession.map Ev.kind) :=
  c1_session_call_order successEnv "P01_2025_10_12_09_30" "100.1.1.1" (by decide)
    rfl rfl rfl rfl rfl rfl rfl rfl 5 (by decide)
